import Mathlib

/-!
Shallow embedding of BanyanGIS v1.3 (`BanyanGIS_v1.3.py`): the dataset-holder
state machine, the command handlers of the `Operations` class, the menu
enablement logic of `MainWindow`, and the label-visibility culling of
`label_features`.  External collaborators (geopandas reading/reprojection/
clipping, rasterio, Qt dialogs) are modelled by passing their outcomes to the
handlers as explicit inputs; Qt side effects (message boxes, canvas redraws,
menu updates, collaborator invocations) are recorded in an effect trace.
File paths, which the handlers inspect character-wise, are modelled as
`List Char`; the EPSG text input is modelled by the runtime observations the
handler makes of it (see `PyStr`); numeric coordinates are `Rat`.
-/

namespace BanyanGIS

/-- A 2-D point (a feature centroid). -/
structure Point where
  x : Rat
  y : Rat
deriving DecidableEq, Repr

/-- A feature geometry, abstracted to whether a centroid can be computed and,
when it can, its coordinates (`row["geometry"].centroid` in the source; the
computation can fail, e.g. on a malformed geometry). -/
structure Geometry where
  hasCentroid : Bool
  cx : Rat
  cy : Rat
deriving DecidableEq, Repr

/-- `geometry.centroid`: the centroid, when it can be computed. -/
def Geometry.centroid (g : Geometry) : Option Point :=
  if g.hasCentroid then some ⟨g.cx, g.cy⟩ else none

/-- A Python value stored in a GeoDataFrame cell. -/
inductive PyVal where
  | str (s : String)
  | int (n : Int)
  | geom (g : Geometry)
  | noneVal
deriving DecidableEq, Repr

/-- Python `str(...)` applied to a cell value (geometry objects stringify to
their WKT text, abstracted here to a fixed tag). -/
def pyStr : PyVal → String
  | .str s => s
  | .int n => toString n
  | .geom _ => "<geometry>"
  | .noneVal => "None"

/-- An axis-aligned rectangle: the visible view window `(x_min, x_max, y_min,
y_max)` of the matplotlib axes, and also a dataset's `total_bounds`. -/
structure ViewRect where
  xMin : Rat
  xMax : Rat
  yMin : Rat
  yMax : Rat
deriving DecidableEq, Repr

/-- A loaded GeoDataFrame: named columns (the `geometry` column included),
one row of cells per feature, a nullable CRS identifier, and the
`total_bounds` rectangle. -/
structure Dataset where
  columns : List String
  rows : List (List PyVal)
  crs : Option String
  bounds : ViewRect
deriving DecidableEq, Repr

/-- A matplotlib text artist placed by `ax.text` in `label_features`:
anchor point (the feature centroid), text, and visibility flag. -/
structure Label where
  pos : Point
  text : String
  visible : Bool
deriving DecidableEq, Repr

/-- The enabled/disabled state of the five gated `Operations` menu actions. -/
structure MenuState where
  attrTable : Bool
  projectionInfo : Bool
  switchProjection : Bool
  clip : Bool
  labelFeatures : Bool
deriving DecidableEq, Repr

/-- The mutable state of `MainWindow`: the dataset holder `self.gdf`, the
welcome-label text, the text artists currently on the figure, the current
axes limits, and the menu enablement state. -/
structure MainState where
  gdf : Option Dataset
  welcomeText : String
  figureLabels : List Label
  view : ViewRect
  menu : MenuState
deriving DecidableEq, Repr

/-- An observable side effect performed by a handler, in order. -/
inductive Effect where
  | menuUpdate
  | canvasDraw
  | showInfo (title msg : String)
  | showWarning (title msg : String)
  | showCritical (title msg : String)
  | showDialogText (text : String)
  | showTable (t : List (List String))
  | reprojectCall (epsg : Nat)
  | vectorClipCall (path : List Char)
  | rasterClipCall (path : List Char)
deriving DecidableEq, Repr

/-- Modelled from the spec (§4.2), for comparison with the code's menu
update: the pure enablement function — all five gated commands are enabled
iff a dataset is held. -/
def enabledSpec (hasDataset : Bool) : MenuState :=
  ⟨hasDataset, hasDataset, hasDataset, hasDataset, hasDataset⟩

/-- `MainWindow.update_operations_menu_state`: sets each of the five gated
actions' enabled flag to `has_file_opened = (self.gdf is not None)`. -/
def update_operations_menu_state (s : MainState) : MainState :=
  let has_file_opened := s.gdf.isSome
  { s with menu := ⟨has_file_opened, has_file_opened, has_file_opened,
                    has_file_opened, has_file_opened⟩ }

/-- `MainWindow.clear_canvas`: resets `self.gdf` to `None`, clears the figure
(destroying any text artists), redraws the canvas, and updates the menu. -/
def clear_canvas (s : MainState) : MainState × List Effect :=
  let s1 : MainState := { s with gdf := none, figureLabels := [] }
  (update_operations_menu_state s1, [Effect.canvasDraw, Effect.menuUpdate])

/-- `Operations.display_gis_data`: warns when no file is open; otherwise
clears the figure, re-plots the dataset, sets the axes limits to the
dataset's `total_bounds`, and redraws the canvas. -/
def display_gis_data (s : MainState) : MainState × List Effect :=
  match s.gdf with
  | none => (s, [Effect.showWarning "Warning" "No GIS file is opened."])
  | some d =>
    ({ s with figureLabels := [], view := d.bounds }, [Effect.canvasDraw])

/-- `Operations.open_file`.  `res` is the outcome of
`ImportFile.import_shapefile`: `some (gdf, path)` on a successful read,
`none` when the dialog was cancelled or the read raised (in which case the
importer already reported the error).  On `none` the handler calls
`clear_canvas`; in both branches it then updates the menu state. -/
def open_file (s : MainState) (res : Option (Dataset × List Char)) :
    MainState × List Effect :=
  match res with
  | some (g, path) =>
    let s1 : MainState :=
      { s with gdf := some g,
               welcomeText := "Opened file: " ++ String.mk path }
    let r := display_gis_data s1
    (update_operations_menu_state r.1, r.2 ++ [Effect.menuUpdate])
  | none =>
    let r := clear_canvas s
    (update_operations_menu_state r.1, r.2 ++ [Effect.menuUpdate])

/-- `Operations.show_projection_info`: reads `self.gdf.crs`; shows the CRS
string, or the text `"Undefined projection"` when the CRS is unset, in a
read-only dialog.  When no dataset is held the attribute access raises and
the `except` clause reports a critical error.  The state is never changed. -/
def show_projection_info (s : MainState) : MainState × List Effect :=
  match s.gdf with
  | none => (s, [Effect.showCritical "Error" "Failed to get projection info."])
  | some d =>
    let projection_info :=
      match d.crs with
      | some c => c
      | none => "Undefined projection"
    (s, [Effect.showDialogText projection_info])

/-- The EPSG text entered in the Switch-Projection dialog, modelled by the
two observations `switch_projection` makes of it through the Python runtime:
the outcome of `epsg_code.isdigit()` and the outcome of `int(epsg_code)`
(`none` = `int` raised).  Python's `str.isdigit` is Unicode-aware — e.g. for
the Arabic-Indic digit three (U+0663) `isdigit()` is true and `int` yields 3,
while for the superscript two (U+00B2) `isdigit()` is true but `int` raises —
a classification Lean's ASCII-only `Char.isDigit` cannot reproduce, so the
runtime's answers are carried as the text's observable attributes rather
than recomputed from a character list.  Every combination is realised by
some Python string: `"abc"` gives `(false, none)`, `"+3"` gives
`(false, some 3)`, `"42"` gives `(true, some 42)`, `"²"` gives
`(true, none)`. -/
structure PyStr where
  isdigitRes : Bool
  intRes : Option Nat
deriving DecidableEq, Repr

/-- `Operations.switch_projection`.  `input` is the text-dialog outcome
(`none` = cancelled, i.e. `ok` false); `reprojRes` is the outcome of the
external reprojector `gdf.to_crs` (`none` = it raised).  Cancelled input or
input whose `isdigit()` is false warns and returns before `int` and the
reprojector are touched; when `isdigit()` is true but `int` raises (a
non-decimal Unicode digit such as `"²"`), the `except` clause reports the
failure before the reprojector is reached; when no dataset is held the
attribute access raises likewise; a reprojector failure also reaches the
`except` clause with the holder untouched. -/
def switch_projection (s : MainState) (input : Option PyStr)
    (reprojRes : Option Dataset) : MainState × List Effect :=
  match input with
  | none => (s, [Effect.showWarning "Warning" "Invalid EPSG code entered."])
  | some code =>
    if code.isdigitRes then
      match code.intRes with
      | none =>
        (s, [Effect.showWarning "Error" "Failed to switch projection."])
      | some epsg =>
        match s.gdf with
        | none =>
          (s, [Effect.showWarning "Error" "Failed to switch projection."])
        | some _ =>
          match reprojRes with
          | none =>
            (s, [Effect.reprojectCall epsg,
                 Effect.showWarning "Error" "Failed to switch projection."])
          | some d2 =>
            let s1 : MainState :=
              { s with gdf := some d2,
                       welcomeText :=
                         "Projection switched to EPSG:" ++ toString epsg }
            let r := display_gis_data s1
            (r.1, Effect.reprojectCall epsg :: r.2)
    else
      (s, [Effect.showWarning "Warning" "Invalid EPSG code entered."])

/-- Python `str.endswith` on the modelled strings. -/
def pyEndsWith (p suf : List Char) : Bool :=
  suf.isSuffixOf p

def shpExt : List Char := ['.', 's', 'h', 'p']

def geojsonExt : List Char := ['.', 'g', 'e', 'o', 'j', 's', 'o', 'n']

def tifExt : List Char := ['.', 't', 'i', 'f']

def tiffExt : List Char := ['.', 't', 'i', 'f', 'f']

/-- `Operations.clip_data`.  `dialog` is the file-dialog outcome (`none` =
cancelled); `vres` is the outcome of the vector branch's collaborators
(`gpd.read_file` followed by `gdf.clip`), `rres` of the raster branch's
(`rasterio.open` bounds followed by `gdf.cx[...]`); `none` means the branch
raised, reaching the `except` clause with the holder untouched.  A path
matching neither extension group falls through both branches and still
reaches `display_gis_data` and the success message. -/
def clip_data (s : MainState) (dialog : Option (List Char))
    (vres rres : Option Dataset) : MainState × List Effect :=
  match s.gdf with
  | none => (s, [Effect.showWarning "Warning" "No GIS file is opened."])
  | some _ =>
    match dialog with
    | none => (s, [])
    | some clip_path =>
      if pyEndsWith clip_path shpExt || pyEndsWith clip_path geojsonExt then
        match vres with
        | none =>
          (s, [Effect.vectorClipCall clip_path,
               Effect.showCritical "Error" "Failed to clip data."])
        | some d2 =>
          let s1 : MainState := { s with gdf := some d2 }
          let r := display_gis_data s1
          (r.1, Effect.vectorClipCall clip_path :: r.2 ++
                [Effect.showInfo "Clip Data" "Data clipped successfully."])
      else if pyEndsWith clip_path tifExt || pyEndsWith clip_path tiffExt then
        match rres with
        | none =>
          (s, [Effect.rasterClipCall clip_path,
               Effect.showCritical "Error" "Failed to clip data."])
        | some d2 =>
          let s1 : MainState := { s with gdf := some d2 }
          let r := display_gis_data s1
          (r.1, Effect.rasterClipCall clip_path :: r.2 ++
                [Effect.showInfo "Clip Data" "Data clipped successfully."])
      else
        let r := display_gis_data s
        (r.1, r.2 ++
              [Effect.showInfo "Clip Data" "Data clipped successfully."])

/-- `gdf.iloc[i, j]` as used by `show_attribute_table` (in-range by the
loop bounds there). -/
def ilocCell (d : Dataset) (i j : Nat) : PyVal :=
  ((d.rows[i]?.getD []) |>.getD j PyVal.noneVal)

/-- The table contents built by the nested loops of
`Operations.show_attribute_table`: for each row index `i < len(gdf)` and
column index `j < len(gdf.columns)`, the cell text `str(gdf.iloc[i, j])`. -/
def buildTable (d : Dataset) : List (List String) :=
  (List.range d.rows.length).map fun i =>
    (List.range d.columns.length).map fun j => pyStr (ilocCell d i j)

/-- `Operations.show_attribute_table`: warns when no file is open; otherwise
shows the populated table dialog.  The state is never changed. -/
def show_attribute_table (s : MainState) : MainState × List Effect :=
  match s.gdf with
  | none => (s, [Effect.showWarning "Warning" "No GIS file is opened."])
  | some d => (s, [Effect.showTable (buildTable d)])

/-- `row[col]` on a GeoDataFrame row: the cell under the named column. -/
def getCell (d : Dataset) (row : List PyVal) (col : String) : Option PyVal :=
  (d.columns.indexOf? col).bind fun j => row[j]?

/-- One iteration of the labelling loop of `label_features`: compute the
row's geometry centroid and the chosen field's text; `none` when the
geometry cell is missing or not a geometry, the centroid cannot be computed,
or the field is missing (each raises in the source).  A fresh `ax.text`
artist is visible by default. -/
def rowLabel (d : Dataset) (field : String) (row : List PyVal) :
    Option Label :=
  match getCell d row "geometry" with
  | some (.geom g) =>
    match g.centroid with
    | some p =>
      match getCell d row field with
      | some v => some ⟨p, pyStr v, true⟩
      | none => none
    | none => none
  | _ => none

/-- The labelling loop of `label_features`: processes the rows in order,
appending one text artist per row; stops at the first failing row, returning
the artists placed so far and whether every row succeeded. -/
def labelLoop (d : Dataset) (field : String) :
    List (List PyVal) → List Label → List Label × Bool
  | [], acc => (acc, true)
  | r :: rs, acc =>
    match rowLabel d field r with
    | some l => labelLoop d field rs (acc ++ [l])
    | none => (acc, false)

/-- The inner `update_label_visibility` of `label_features`: a label is made
visible iff `x_min <= centroid.x <= x_max and y_min <= centroid.y <= y_max`
for the current axes limits. -/
def update_label_visibility (v : ViewRect) (labels : List Label) :
    List Label :=
  labels.map fun l =>
    { l with visible :=
        (decide (v.xMin ≤ l.pos.x) && decide (l.pos.x ≤ v.xMax)) &&
        (decide (v.yMin ≤ l.pos.y) && decide (l.pos.y ≤ v.yMax)) }

/-- `Operations.label_features`.  `fieldChoice` is the item-dialog outcome
(`none` = cancelled or empty choice, the `if ok and field` guard).  The
handler first clears the figure and re-plots (autoscaling the axes to the
dataset bounds), then runs the labelling loop; on success it applies the
initial visibility pass and redraws, on a failing row the `except` clause
reports the error with the artists placed so far left on the figure and no
redraw. -/
def label_features (s : MainState) (fieldChoice : Option String) :
    MainState × List Effect :=
  match s.gdf with
  | none => (s, [Effect.showWarning "Warning" "No GIS file is opened."])
  | some d =>
    match fieldChoice with
    | none => (s, [])
    | some field =>
      let s1 : MainState := { s with figureLabels := [], view := d.bounds }
      let res := labelLoop d field d.rows []
      if res.2 then
        ({ s1 with figureLabels := update_label_visibility s1.view res.1 },
         [Effect.canvasDraw])
      else
        ({ s1 with figureLabels := res.1 },
         [Effect.showCritical "Error" "Failed to display labels."])

/-- A command invocation together with the outcomes of the dialogs and
external collaborators it consults. -/
inductive Command where
  | openCmd (res : Option (Dataset × List Char))
  | projInfoCmd
  | switchProjCmd (input : Option PyStr) (reprojRes : Option Dataset)
  | clipCmd (dialog : Option (List Char)) (vres rres : Option Dataset)
  | attrTableCmd
  | labelCmd (fieldChoice : Option String)
  | clearCmd
deriving DecidableEq

/-- Dispatch of a command invocation to its handler. -/
def runCommand : Command → MainState → MainState × List Effect
  | .openCmd res, s => open_file s res
  | .projInfoCmd, s => show_projection_info s
  | .switchProjCmd i r, s => switch_projection s i r
  | .clipCmd dlg v r, s => clip_data s dlg v r
  | .attrTableCmd, s => show_attribute_table s
  | .labelCmd f, s => label_features s f
  | .clearCmd, s => clear_canvas s

end BanyanGIS

namespace BanyanGIS

/-- A geometry whose centroid computation succeeds. -/
def goodGeom : Geometry := ⟨true, 1, 2⟩

/-- A geometry whose centroid computation fails. -/
def badGeom : Geometry := ⟨false, 0, 0⟩

/-- A two-feature demo dataset whose second feature has no centroid. -/
def dsDemo : Dataset :=
  ⟨["name", "geometry"],
   [[.str "A", .geom goodGeom], [.str "B", .geom badGeom]],
   some "EPSG:4326", ⟨0, 10, 0, 10⟩⟩

/-- A label already displayed on the figure before relabelling. -/
def priorLabel : Label := ⟨⟨5, 5⟩, "old", true⟩

/-- A window state holding `dsDemo`, with one label on the figure. -/
def stHeld : MainState :=
  ⟨some dsDemo, "w", [priorLabel], ⟨0, 10, 0, 10⟩, enabledSpec true⟩

/-- A reprojected dataset, distinct from `dsDemo`. -/
def dsProj : Dataset := ⟨["geometry"], [], some "EPSG:3857", ⟨0, 1, 0, 1⟩⟩

/-- A one-feature dataset with no CRS set. -/
def dsGood : Dataset :=
  ⟨["name", "geometry"], [[.str "A", .geom goodGeom]], none, ⟨0, 10, 0, 10⟩⟩

/-- A window state holding `dsGood` with an empty figure. -/
def stGood : MainState :=
  ⟨some dsGood, "w", [], ⟨0, 10, 0, 10⟩, enabledSpec true⟩

end BanyanGIS

namespace BanyanGIS

/-- Two lists that are not suffixes of one another are never both suffixes
of the same list. -/
theorem isSuffixOf_eq_false_of_incomp {l₁ l₂ : List Char}
    (h₁ : ¬ l₁ <:+ l₂) (h₂ : ¬ l₂ <:+ l₁) {p : List Char}
    (h : l₁ <:+ p) : l₂.isSuffixOf p = false := by
  rw [Bool.eq_false_iff]
  intro hc
  rw [List.isSuffixOf_iff_suffix] at hc
  rcases List.suffix_or_suffix_of_suffix h hc with hs | hs
  · exact h₁ hs
  · exact h₂ hs

/-- A path with a raster extension never also matches the vector-extension
test of `clip_data`. -/
theorem raster_not_vector (p : List Char)
    (h : (pyEndsWith p tifExt || pyEndsWith p tiffExt) = true) :
    (pyEndsWith p shpExt || pyEndsWith p geojsonExt) = false := by
  rcases Bool.or_eq_true_iff.mp h with ht | ht <;>
    rw [pyEndsWith, List.isSuffixOf_iff_suffix] at ht <;>
    rw [Bool.or_eq_false_iff] <;>
    constructor <;>
    apply isSuffixOf_eq_false_of_incomp (p := p) _ _ ht <;> decide

/-- C1 counterexample: with a dataset held, a failed (or cancelled) Open
does change the holder — `clear_canvas` resets it to absent, refuting the
claim that the previously held Dataset is left unchanged. -/
theorem open_file_failure_destroys_dataset :
    stHeld.gdf ≠ none ∧ (open_file stHeld none).1.gdf ≠ stHeld.gdf := by
  decide

/-- C1 (amended): when Open does not produce a successfully read dataset,
the handler calls `clear_canvas`, so the holder is reset to absent (a
previously held Dataset is destroyed; an absent holder stays absent), the
figure is cleared, and the menu state is recomputed. -/
theorem open_file_failure_clears (s : MainState) :
    (open_file s none).1.gdf = none ∧
    (open_file s none).1.figureLabels = [] ∧
    Effect.menuUpdate ∈ (open_file s none).2 := by
  simp [open_file, clear_canvas, update_operations_menu_state]

/-- C2: `update_label_visibility` marks the label at each position visible
iff its anchor point lies in the closed view rectangle, boundaries
included, and leaves its position and text unchanged. -/
theorem update_label_visibility_iff (v : ViewRect) (labels : List Label)
    (i : Nat) (l : Label) (h : labels[i]? = some l) :
    ∃ l2, (update_label_visibility v labels)[i]? = some l2 ∧
      l2.pos = l.pos ∧ l2.text = l.text ∧
      (l2.visible = true ↔
        (v.xMin ≤ l.pos.x ∧ l.pos.x ≤ v.xMax ∧
         v.yMin ≤ l.pos.y ∧ l.pos.y ≤ v.yMax)) := by
  have hm : (update_label_visibility v labels)[i]? =
      some { l with visible :=
        (decide (v.xMin ≤ l.pos.x) && decide (l.pos.x ≤ v.xMax)) &&
        (decide (v.yMin ≤ l.pos.y) && decide (l.pos.y ≤ v.yMax)) } := by
    simp [update_label_visibility, List.getElem?_map, h]
  refine ⟨_, hm, rfl, rfl, ?_⟩
  simp [Bool.and_eq_true, decide_eq_true_eq, and_assoc]

/-- C2 witness: the culling rule evaluated on a concrete label and view. -/
theorem update_label_visibility_iff_witness :
    ∃ l2, (update_label_visibility ⟨0, 1, 0, 1⟩
            [Label.mk ⟨0, 2⟩ "x" false])[0]? = some l2 ∧
      l2.pos = (Label.mk ⟨0, 2⟩ "x" false).pos ∧
      l2.text = (Label.mk ⟨0, 2⟩ "x" false).text ∧
      (l2.visible = true ↔
        ((0 : Rat) ≤ (Label.mk ⟨0, 2⟩ "x" false).pos.x ∧
         (Label.mk ⟨0, 2⟩ "x" false).pos.x ≤ 1 ∧
         (0 : Rat) ≤ (Label.mk ⟨0, 2⟩ "x" false).pos.y ∧
         (Label.mk ⟨0, 2⟩ "x" false).pos.y ≤ 1)) :=
  update_label_visibility_iff ⟨0, 1, 0, 1⟩ [Label.mk ⟨0, 2⟩ "x" false] 0
    (Label.mk ⟨0, 2⟩ "x" false) (by decide)

/-- C3: `update_operations_menu_state` sets each of the five gated actions
to enabled exactly when a dataset is held, i.e. it computes the spec's pure
enablement function of `hasDataset`. -/
theorem update_operations_menu_state_spec (s : MainState) :
    (update_operations_menu_state s).menu.attrTable = s.gdf.isSome ∧
    (update_operations_menu_state s).menu.projectionInfo = s.gdf.isSome ∧
    (update_operations_menu_state s).menu.switchProjection = s.gdf.isSome ∧
    (update_operations_menu_state s).menu.clip = s.gdf.isSome ∧
    (update_operations_menu_state s).menu.labelFeatures = s.gdf.isSome ∧
    (update_operations_menu_state s).menu = enabledSpec s.gdf.isSome := by
  exact ⟨rfl, rfl, rfl, rfl, rfl, rfl⟩

end BanyanGIS

namespace BanyanGIS

/-- C4: Switch-Projection warns and changes nothing on a cancelled dialog or
on input that is not a string of digits (the runtime's `isdigit()` answered
false), and never invokes the reprojector in those cases; and when the
reprojector itself fails, the state (CRS and geometry included) is left
unchanged. -/
theorem switch_projection_validation (s : MainState) (code : PyStr)
    (r : Option Dataset) :
    (code.isdigitRes = false →
      (switch_projection s (some code) r).1 = s ∧
      Effect.showWarning "Warning" "Invalid EPSG code entered."
        ∈ (switch_projection s (some code) r).2 ∧
      ∀ e, Effect.reprojectCall e ∉ (switch_projection s (some code) r).2) ∧
    ((switch_projection s none r).1 = s ∧
      Effect.showWarning "Warning" "Invalid EPSG code entered."
        ∈ (switch_projection s none r).2 ∧
      ∀ e, Effect.reprojectCall e ∉ (switch_projection s none r).2) ∧
    (switch_projection s (some code) none).1 = s := by
  refine ⟨fun hnd => ?_, ?_, ?_⟩
  · simp [switch_projection, hnd]
  · simp [switch_projection]
  · by_cases hd : code.isdigitRes
    · cases hi : code.intRes with
      | none => simp [switch_projection, hd, hi]
      | some epsg => cases hg : s.gdf <;> simp [switch_projection, hd, hi, hg]
    · simp [switch_projection, hd]

/-- C4 witness: the observation of the non-digit input `"a"` — `isdigit()`
false, `int` raising — on a held dataset. -/
theorem switch_projection_validation_witness :
    (switch_projection stHeld (some ⟨false, none⟩) none).1 = stHeld ∧
    Effect.showWarning "Warning" "Invalid EPSG code entered."
      ∈ (switch_projection stHeld (some ⟨false, none⟩) none).2 ∧
    ∀ e, Effect.reprojectCall e
      ∉ (switch_projection stHeld (some ⟨false, none⟩) none).2 :=
  (switch_projection_validation stHeld ⟨false, none⟩ none).1 (by decide)

/-- C5: clip dispatch — a path with a `.shp`/`.geojson` extension always
reaches the vector-clip branch, a `.tif`/`.tiff` extension always reaches
the raster-bounds branch, and any other extension performs no clip and
leaves the held dataset unchanged. -/
theorem clip_data_dispatch (s : MainState) (d : Dataset)
    (hd : s.gdf = some d) (path : List Char) (vres rres : Option Dataset) :
    ((pyEndsWith path shpExt || pyEndsWith path geojsonExt) = true →
      Effect.vectorClipCall path ∈ (clip_data s (some path) vres rres).2) ∧
    ((pyEndsWith path tifExt || pyEndsWith path tiffExt) = true →
      Effect.rasterClipCall path ∈ (clip_data s (some path) vres rres).2) ∧
    ((pyEndsWith path shpExt || pyEndsWith path geojsonExt) = false →
     (pyEndsWith path tifExt || pyEndsWith path tiffExt) = false →
      (clip_data s (some path) vres rres).1.gdf = s.gdf ∧
      (∀ q, Effect.vectorClipCall q ∉ (clip_data s (some path) vres rres).2) ∧
      (∀ q, Effect.rasterClipCall q ∉ (clip_data s (some path) vres rres).2)) := by
  refine ⟨fun hv => ?_, fun hr => ?_, fun hv hr => ?_⟩
  · cases vres <;> simp [clip_data, hd, hv, display_gis_data]
  · have hnv := raster_not_vector path hr
    cases rres <;> simp [clip_data, hd, hnv, hr, display_gis_data]
  · simp [clip_data, hd, hv, hr, display_gis_data]

/-- C5 witness: a `.shp` clip path on a held dataset reaches the vector
branch. -/
theorem clip_data_dispatch_witness :
    Effect.vectorClipCall ['b', '.', 's', 'h', 'p'] ∈
      (clip_data stHeld (some ['b', '.', 's', 'h', 'p'])
        (some dsProj) none).2 :=
  (clip_data_dispatch stHeld dsDemo (by decide) ['b', '.', 's', 'h', 'p']
    (some dsProj) none).1 (by decide)

/-- C9: a clip path with an unknown extension, chosen while a dataset is
held, performs no clip yet still triggers a re-render and reports the
success message. -/
theorem clip_data_unknown_ext_success (s : MainState) (d : Dataset)
    (hd : s.gdf = some d) (path : List Char) (vres rres : Option Dataset)
    (hv : (pyEndsWith path shpExt || pyEndsWith path geojsonExt) = false)
    (hr : (pyEndsWith path tifExt || pyEndsWith path tiffExt) = false) :
    (clip_data s (some path) vres rres).1.gdf = s.gdf ∧
    Effect.canvasDraw ∈ (clip_data s (some path) vres rres).2 ∧
    Effect.showInfo "Clip Data" "Data clipped successfully."
      ∈ (clip_data s (some path) vres rres).2 := by
  simp [clip_data, hd, hv, hr, display_gis_data]

/-- C9 witness: the clip path `"a.txt"` on a held dataset. -/
theorem clip_data_unknown_ext_success_witness :
    (clip_data stHeld (some ['a', '.', 't', 'x', 't']) none none).1.gdf
      = stHeld.gdf ∧
    Effect.canvasDraw
      ∈ (clip_data stHeld (some ['a', '.', 't', 'x', 't']) none none).2 ∧
    Effect.showInfo "Clip Data" "Data clipped successfully."
      ∈ (clip_data stHeld (some ['a', '.', 't', 'x', 't']) none none).2 :=
  clip_data_unknown_ext_success stHeld dsDemo (by decide)
    ['a', '.', 't', 'x', 't'] none none (by decide) (by decide)

/-- C7: Show-Projection-Info on a held dataset displays the CRS identifier
when set and the text `"Undefined projection"` when the CRS is absent, and
never changes the state. -/
theorem show_projection_info_spec (s : MainState) (d : Dataset)
    (hd : s.gdf = some d) :
    (show_projection_info s).1 = s ∧
    (show_projection_info s).2 =
      [Effect.showDialogText (d.crs.getD "Undefined projection")] := by
  cases hc : d.crs <;> simp [show_projection_info, hd, hc]

/-- C7 witness: a held dataset with no CRS set displays the fallback text. -/
theorem show_projection_info_spec_witness :
    (show_projection_info stGood).1 = stGood ∧
    (show_projection_info stGood).2 =
      [Effect.showDialogText "Undefined projection"] :=
  show_projection_info_spec stGood dsGood (by decide)

end BanyanGIS

namespace BanyanGIS

/-- C6 counterexample: on `dsDemo` (whose second feature has no centroid),
labelling by `"name"` reports the failure, yet the previously displayed
label is destroyed and the first feature's label is left applied — the
handler is not all-or-nothing. -/
theorem label_features_partial_counterexample :
    stHeld.figureLabels ≠ [] ∧
    Effect.showCritical "Error" "Failed to display labels."
      ∈ (label_features stHeld (some "name")).2 ∧
    (label_features stHeld (some "name")).1.figureLabels
      ≠ stHeld.figureLabels ∧
    (label_features stHeld (some "name")).1.figureLabels ≠ [] := by
  decide

/-- C6 (amended): when computing some feature's label fails, the failure is
reported and the canvas is not redrawn, but the prior labels have already
been cleared and the labels of the features processed before the failing
one remain applied to the figure. -/
theorem label_features_failure (s : MainState) (d : Dataset) (field : String)
    (hd : s.gdf = some d)
    (hfail : (labelLoop d field d.rows []).2 = false) :
    (label_features s (some field)).1.figureLabels
      = (labelLoop d field d.rows []).1 ∧
    Effect.showCritical "Error" "Failed to display labels."
      ∈ (label_features s (some field)).2 ∧
    Effect.canvasDraw ∉ (label_features s (some field)).2 := by
  simp [label_features, hd, hfail]

/-- C6 witness: the failing labelling on `dsDemo`. -/
theorem label_features_failure_witness :
    (label_features stHeld (some "name")).1.figureLabels
      = (labelLoop dsDemo "name" dsDemo.rows []).1 ∧
    Effect.showCritical "Error" "Failed to display labels."
      ∈ (label_features stHeld (some "name")).2 ∧
    Effect.canvasDraw ∉ (label_features stHeld (some "name")).2 :=
  label_features_failure stHeld dsDemo "name" (by decide) (by decide)

/-- Indexing a list by `0, ..., length - 1` and stringifying each entry is
the same as mapping the stringifier over the list. -/
theorem range_map_getD (r : List PyVal) :
    (List.range r.length).map (fun j => pyStr (r.getD j PyVal.noneVal))
      = r.map pyStr := by
  induction r with
  | nil => rfl
  | cons a t ih =>
    simp only [List.length_cons, List.range_succ_eq_map, List.map_cons,
      List.map_map]
    rw [show
        ((fun j => pyStr ((a :: t).getD j PyVal.noneVal)) ∘ Nat.succ)
          = fun j => pyStr (t.getD j PyVal.noneVal) from
      funext fun j => by simp [List.getD_cons_succ], ih]
    rfl

/-- C10: the attribute table built by `show_attribute_table` has one row per
feature of exactly the dataset's column count (the geometry column
included), and each cell is the string conversion of the corresponding cell
value. -/
theorem show_attribute_table_spec (d : Dataset)
    (hwf : ∀ r ∈ d.rows, r.length = d.columns.length) :
    (buildTable d).length = d.rows.length ∧
    (∀ i, i < d.rows.length →
      (buildTable d)[i]? = some ((d.rows.getD i []).map pyStr)) ∧
    (∀ i, i < d.rows.length →
      ((buildTable d)[i]?.getD []).length = d.columns.length) := by
  have hrow : ∀ i, i < d.rows.length →
      (buildTable d)[i]? = some ((d.rows.getD i []).map pyStr) := by
    intro i hi
    obtain ⟨r, hr⟩ : ∃ r, d.rows[i]? = some r :=
      ⟨_, List.getElem?_eq_getElem hi⟩
    have hlen : r.length = d.columns.length :=
      hwf r (List.getElem?_mem hr)
    have hgetD : d.rows.getD i [] = r := by
      rw [List.getD_eq_getElem?_getD, hr, Option.getD_some]
    rw [buildTable, List.getElem?_map, List.getElem?_range hi,
      Option.map_some', hgetD, ← hlen]
    have hcell : ∀ j, ilocCell d i j = r.getD j PyVal.noneVal := by
      intro j
      rw [ilocCell, hr, Option.getD_some, List.getD_eq_getElem?_getD]
    simp only [hcell]
    exact congrArg some (range_map_getD r)
  refine ⟨by simp [buildTable], hrow, ?_⟩
  intro i hi
  rw [hrow i hi, Option.getD_some, List.length_map,
    List.getD_eq_getElem?_getD, List.getElem?_eq_getElem hi,
    Option.getD_some]
  exact hwf _ (List.getElem_mem hi)

/-- C10 witness: the table of `dsGood`, one feature and two columns, the
geometry column stringified alongside the attribute column. -/
theorem show_attribute_table_spec_witness :
    (buildTable dsGood).length = dsGood.rows.length ∧
    (∀ i, i < dsGood.rows.length →
      (buildTable dsGood)[i]? = some ((dsGood.rows.getD i []).map pyStr)) ∧
    (∀ i, i < dsGood.rows.length →
      ((buildTable dsGood)[i]?.getD []).length = dsGood.columns.length) :=
  show_attribute_table_spec dsGood (by decide)

end BanyanGIS

namespace BanyanGIS

/-- C8 counterexample: a successful Switch-Projection mutates the dataset
holder but performs no menu-state recomputation — the handler never calls
`update_operations_menu_state`, refuting the claim that enablement is
recomputed after every holder mutation. -/
theorem switch_projection_skips_menu_update :
    (switch_projection stHeld (some ⟨true, some 3857⟩)
        (some dsProj)).1.gdf ≠ stHeld.gdf ∧
    Effect.menuUpdate
      ∉ (switch_projection stHeld (some ⟨true, some 3857⟩)
          (some dsProj)).2 := by
  decide

/-- C8 (amended): Open and clear do recompute the menu state synchronously
after mutating the holder, while Switch-Projection and Clip do not; but the
latter two only ever replace a held dataset by another one, so every
command handler preserves the invariant that the menu state equals the
enablement function of the current holder. -/
theorem menu_state_invariant (c : Command) (s : MainState)
    (h : s.menu = enabledSpec s.gdf.isSome) :
    (runCommand c s).1.menu = enabledSpec (runCommand c s).1.gdf.isSome := by
  cases c with
  | openCmd res =>
    rcases res with _ | ⟨g, path⟩ <;>
      simp [runCommand, open_file, clear_canvas, display_gis_data,
        update_operations_menu_state, enabledSpec]
  | projInfoCmd =>
    cases hg : s.gdf <;> simp [runCommand, show_projection_info, hg, h]
  | switchProjCmd input r =>
    rcases input with _ | code
    · simpa [runCommand, switch_projection] using h
    · by_cases hdg : code.isdigitRes
      · cases hi : code.intRes with
        | none => simpa [runCommand, switch_projection, hdg, hi] using h
        | some epsg =>
          cases hg : s.gdf with
          | none =>
            simpa [runCommand, switch_projection, hdg, hi, hg] using h
          | some d =>
            cases r with
            | none =>
              simpa [runCommand, switch_projection, hdg, hi, hg] using h
            | some d2 =>
              simp [runCommand, switch_projection, hdg, hi, hg,
                display_gis_data, h]
      · simpa [runCommand, switch_projection, hdg] using h
  | clipCmd dlg v r =>
    cases hg : s.gdf with
    | none => simpa [runCommand, clip_data, hg] using h
    | some d =>
      rcases dlg with _ | path
      · simpa [runCommand, clip_data, hg] using h
      · by_cases hv : (pyEndsWith path shpExt || pyEndsWith path geojsonExt)
            = true
        · cases v with
          | none => simpa [runCommand, clip_data, hg, hv] using h
          | some d2 =>
            simp [runCommand, clip_data, hg, hv, display_gis_data, h]
        · by_cases hr2 : (pyEndsWith path tifExt || pyEndsWith path tiffExt)
              = true
          · cases r with
            | none => simpa [runCommand, clip_data, hg, hv, hr2] using h
            | some d2 =>
              simp [runCommand, clip_data, hg, hv, hr2, display_gis_data, h]
          · simp [runCommand, clip_data, hg, hv, hr2, display_gis_data, h]
  | attrTableCmd =>
    cases hg : s.gdf <;> simpa [runCommand, show_attribute_table, hg] using h
  | labelCmd f =>
    cases hg : s.gdf with
    | none => simpa [runCommand, label_features, hg] using h
    | some d =>
      rcases f with _ | field
      · simpa [runCommand, label_features, hg] using h
      · by_cases hok : (labelLoop d field d.rows []).2 = true
        · simp [runCommand, label_features, hg, hok, h]
        · simp [runCommand, label_features, hg, hok, h]
  | clearCmd =>
    simp [runCommand, clear_canvas, update_operations_menu_state, enabledSpec]

/-- C8 witness: the invariant evaluated across a successful
Switch-Projection from `stHeld`. -/
theorem menu_state_invariant_witness :
    (runCommand (Command.switchProjCmd (some ⟨true, some 3857⟩)
        (some dsProj)) stHeld).1.menu
      = enabledSpec (runCommand (Command.switchProjCmd
          (some ⟨true, some 3857⟩) (some dsProj)) stHeld).1.gdf.isSome :=
  menu_state_invariant
    (Command.switchProjCmd (some ⟨true, some 3857⟩) (some dsProj))
    stHeld (by decide)

end BanyanGIS
